import Mathlib

/-!
Shallow embedding of the access/quota gate and related handlers of the
Qbot (ChatCat) repository.

Embedded routes:
* `sessionsPOST` embeds `src/app/api/chatbots/[chatbotId]/sessions/route.ts`
  (function `POST`): bearer auth, profile lookup, chatbot lookup, class
  allowlist check, quota check, session insert.
* `manageAttemptsPOST` embeds the manage-attempts route
  (`src/app/api/teacher/chatbots/[chatbotId]/manage-attempts/route.ts`,
  function `POST`): teacher auth, ownership check, zod-validated scope,
  deletion of usage sessions by student / class / chatbot scope.
* `upsertOne` / `upsertGoalResponses` embed the upsert of step 8 of
  `src/app/api/ai/evaluate-goals/route.ts` (onConflict key
  student_id, chatbot_id, goal_id).

Modelling notes, each justified by the source:
* Identifiers (uuids) are `String`.
* `max_attempts` is `Option Nat`: the zod schemas guarding every write of
  the column (`z.number().int().min(0).nullable()`) make negative values
  unreachable, and the database column is nullable.
* `allowed_classes` is `Option (List String)` (a nullable text array).
  JavaScript truthiness matters here: `null` is falsy but the empty array
  `[]` is truthy, so the pattern match below distinguishes `none` from
  `some []` exactly as the JavaScript condition
  `if (chatbot.allowed_classes && studentClassId)` does.
* `class_id` of a profile is `Option String`: `null` is falsy, a uuid
  string is truthy (uuids are never the empty string).
* Infrastructure failures (the 500 paths: failed count, failed insert,
  thrown exceptions) are not modelled; every modelled database call
  succeeds, which is the premise of all the claims under study.
-/

/-- A row of the `profiles` table, restricted to the columns the sessions
route selects: `id, class_id`. -/
structure Profile where
  id : String
  class_id : Option String
deriving DecidableEq, Repr

/-- A row of the `chatbots` table, restricted to the columns the embedded
routes select: `id, teacher_id, max_attempts, allowed_classes`. -/
structure Chatbot where
  id : String
  teacher_id : String
  max_attempts : Option Nat
  allowed_classes : Option (List String)
deriving DecidableEq, Repr

/-- A row of the `students` table, restricted to the columns the
manage-attempts route uses: `id, teacher_id, class_name`. -/
structure Student where
  id : String
  teacher_id : String
  class_name : String
deriving DecidableEq, Repr

/-- A row of the `student_sessions` table (the UsageSession of the spec):
one row per accepted start event. The `id` is the synthetic primary key. -/
structure SessionRow where
  id : Nat
  student_id : String
  chatbot_id : String
deriving DecidableEq, Repr

/-- A row of the `student_goal_responses` table, the target of the
evaluate-goals upsert. -/
structure GoalResponseRow where
  student_id : String
  chatbot_id : String
  goal_id : String
  evaluated_by_ai : Bool
  evaluation_comment : String
  checked_by_student : Bool
deriving DecidableEq, Repr

/-- One entry of the JSON array returned by the LLM in evaluate-goals. -/
structure EvaluationResult where
  goal_id : String
  achieved : Bool
  reason : String
deriving DecidableEq, Repr

/-- The persistent state: the tables the embedded handlers read and write,
plus a counter generating fresh session row ids. -/
structure DB where
  profiles : List Profile
  chatbots : List Chatbot
  students : List Student
  sessions : List SessionRow
  goalResponses : List GoalResponseRow
  nextId : Nat
deriving DecidableEq, Repr

/-- Outcome of resolving the bearer credential, as the route sees it:
no Authorization header, `auth.getUser` failure, or a valid user id. -/
inductive AuthInput where
  | missing : AuthInput
  | invalid : AuthInput
  | valid (userId : String) : AuthInput
deriving DecidableEq, Repr

/-- Machine-stable reason codes of the deny paths of the gate. -/
inductive GateReason where
  | TokenMissing : GateReason
  | InvalidToken : GateReason
  | ProfileNotFound : GateReason
  | ChatbotNotFound : GateReason
  | ClassInfoMissing : GateReason
  | ClassNotAllowed : GateReason
  | QuotaExceeded : GateReason
deriving DecidableEq, Repr

/-- Response of the sessions route: a 201 allow with the response body
fields, or a deny with an HTTP status and a reason code. -/
inductive GateResponse where
  | allow (id : Nat) (student_id : String) (chatbot_id : String)
      (current_attempts : Nat) (max_attempts : Option Nat) : GateResponse
  | deny (status : Nat) (reason : GateReason) : GateResponse
deriving DecidableEq, Repr

/-- HTTP status of a gate response: 201 on allow, the carried status on
deny. -/
def GateResponse.status : GateResponse → Nat
  | GateResponse.allow _ _ _ _ _ => 201
  | GateResponse.deny s _ => s

/-- The reason code of a deny response, `none` on allow. -/
def GateResponse.reasonOf : GateResponse → Option GateReason
  | GateResponse.allow _ _ _ _ _ => none
  | GateResponse.deny _ r => some r

/-- `.from('profiles').select('id, class_id').eq('id', userId).single()` -/
def findProfile (db : DB) (userId : String) : Option Profile :=
  db.profiles.find? (fun p => p.id == userId)

/-- `.from('chatbots').select(...).eq('id', chatbotId).single()` -/
def findChatbot (db : DB) (chatbotId : String) : Option Chatbot :=
  db.chatbots.find? (fun c => c.id == chatbotId)

/-- Count of session rows matching a (student, chatbot) pair in a list. -/
def countRows (sessions : List SessionRow) (studentId chatbotId : String) : Nat :=
  (sessions.filter (fun s => s.student_id == studentId && s.chatbot_id == chatbotId)).length

/-- `.from('student_sessions').select('*', count).eq('student_id', studentId).eq('chatbot_id', chatbotId)` -/
def countSessions (db : DB) (studentId chatbotId : String) : Nat :=
  countRows db.sessions studentId chatbotId

/-- Step 7 of the sessions route: insert the new session row and build the
201 response `{...newSession, current_attempts: currentUsageCount + 1,
max_attempts: maxAttempts}`. -/
def insertSession (db : DB) (studentId chatbotId : String)
    (currentUsageCount : Nat) (maxAttempts : Option Nat) : GateResponse × DB :=
  let row : SessionRow := ⟨db.nextId, studentId, chatbotId⟩
  (GateResponse.allow row.id studentId chatbotId (currentUsageCount + 1) maxAttempts,
   { db with sessions := db.sessions ++ [row], nextId := db.nextId + 1 })

/-- Steps 4 to 7 of the sessions route. `currentUsageCount` starts at 0 and
is set by the count query only when `maxAttempts` is non-null (the source
guard is `maxAttempts !== null && maxAttempts >= 0`; with the zod-enforced
non-negative domain the second conjunct always holds). Denial condition is
`maxAttempts === 0 || currentUsageCount >= maxAttempts`. On the null path
the count query is skipped, so the response carries `0 + 1`. -/
def quotaCheckAndInsert (db : DB) (studentId chatbotId : String)
    (maxAttempts : Option Nat) : GateResponse × DB :=
  match maxAttempts with
  | some m =>
    let currentUsageCount := countSessions db studentId chatbotId
    if m = 0 ∨ currentUsageCount ≥ m then
      (GateResponse.deny 429 GateReason.QuotaExceeded, db)
    else
      insertSession db studentId chatbotId currentUsageCount (some m)
  | none => insertSession db studentId chatbotId 0 none

/-- The sessions route `POST` handler
(`src/app/api/chatbots/[chatbotId]/sessions/route.ts`). The class check
mirrors the JavaScript truthiness structure: the first branch fires when
`allowed_classes` is non-null AND the student has a class id; the second
when `allowed_classes` is non-null (empty array included) and the student
has none; when `allowed_classes` is null the check is skipped. -/
def sessionsPOST (db : DB) (auth : AuthInput) (chatbotId : String) : GateResponse × DB :=
  match auth with
  | AuthInput.missing => (GateResponse.deny 401 GateReason.TokenMissing, db)
  | AuthInput.invalid => (GateResponse.deny 401 GateReason.InvalidToken, db)
  | AuthInput.valid userId =>
    match findProfile db userId with
    | none => (GateResponse.deny 403 GateReason.ProfileNotFound, db)
    | some studentProfile =>
      match findChatbot db chatbotId with
      | none => (GateResponse.deny 404 GateReason.ChatbotNotFound, db)
      | some chatbot =>
        match chatbot.allowed_classes, studentProfile.class_id with
        | some allowedClasses, some studentClassId =>
          if (allowedClasses.contains studentClassId) = false then
            (GateResponse.deny 403 GateReason.ClassNotAllowed, db)
          else
            quotaCheckAndInsert db studentProfile.id chatbotId chatbot.max_attempts
        | some _, none => (GateResponse.deny 403 GateReason.ClassInfoMissing, db)
        | none, _ => quotaCheckAndInsert db studentProfile.id chatbotId chatbot.max_attempts

/-- The zod-validated body of the manage-attempts route. The refine step
makes `studentId` mandatory for scope student and `className` mandatory for
scope class, so a validated body is exactly one of these three shapes. -/
inductive ResetScope where
  | studentScope (studentId : String) : ResetScope
  | classScope (className : String) : ResetScope
  | chatbotScope : ResetScope
deriving DecidableEq, Repr

/-- Response of the manage-attempts route: 200 with the success message, or
an error status. -/
inductive ManageResponse where
  | ok (status : Nat) (message : String) : ManageResponse
  | err (status : Nat) : ManageResponse
deriving DecidableEq, Repr

/-- The manage-attempts route `POST` handler (teacher side). A body that
fails zod validation is `none` (400). Deletion base query is
`.from('student_sessions').delete().eq('chatbot_id', chatbotId)`, refined
per scope; for scope class the student list is fetched filtered by
`teacher_id = user.id` and `class_name = className`, and when that list is
empty no delete statement runs at all. -/
def manageAttemptsPOST (db : DB) (auth : AuthInput) (chatbotId : String)
    (body : Option ResetScope) : ManageResponse × DB :=
  match auth with
  | AuthInput.missing => (ManageResponse.err 401, db)
  | AuthInput.invalid => (ManageResponse.err 401, db)
  | AuthInput.valid userId =>
    match findChatbot db chatbotId with
    | none => (ManageResponse.err 404, db)
    | some chatbot =>
      if chatbot.teacher_id ≠ userId then (ManageResponse.err 403, db)
      else
        match body with
        | none => (ManageResponse.err 400, db)
        | some (ResetScope.studentScope studentId) =>
          let kept := db.sessions.filter
            (fun s => !(s.chatbot_id == chatbotId && s.student_id == studentId))
          (ManageResponse.ok 200 "Attempts reset successfully", { db with sessions := kept })
        | some (ResetScope.classScope className) =>
          let students := db.students.filter
            (fun st => st.teacher_id == userId && st.class_name == className)
          if students.length > 0 then
            let studentIds := students.map (fun st => st.id)
            let kept := db.sessions.filter
              (fun s => !(s.chatbot_id == chatbotId && studentIds.contains s.student_id))
            (ManageResponse.ok 200 "Attempts reset successfully", { db with sessions := kept })
          else
            (ManageResponse.ok 200 "Attempts reset successfully", db)
        | some ResetScope.chatbotScope =>
          let kept := db.sessions.filter (fun s => !(s.chatbot_id == chatbotId))
          (ManageResponse.ok 200 "Attempts reset successfully", { db with sessions := kept })

/-- Upsert of a single evaluation result into `student_goal_responses` with
conflict key (student_id, chatbot_id, goal_id): on conflict the row is
updated in place (columns `evaluated_by_ai`, `evaluation_comment`),
otherwise a fresh row is inserted (`checked_by_student` takes the database
default false). -/
def upsertOne (table : List GoalResponseRow) (studentId chatbotId : String)
    (result : EvaluationResult) : List GoalResponseRow :=
  if table.any (fun r => r.student_id == studentId && r.chatbot_id == chatbotId
      && r.goal_id == result.goal_id) then
    table.map (fun r =>
      if r.student_id == studentId && r.chatbot_id == chatbotId
          && r.goal_id == result.goal_id then
        { r with evaluated_by_ai := result.achieved,
                 evaluation_comment := result.reason }
      else r)
  else
    table ++ [{ student_id := studentId, chatbot_id := chatbotId,
                goal_id := result.goal_id, evaluated_by_ai := result.achieved,
                evaluation_comment := result.reason, checked_by_student := false }]

/-- Step 8 of the evaluate-goals route: the batch upsert of all evaluation
results for one (student, chatbot). -/
def upsertGoalResponses (table : List GoalResponseRow) (studentId chatbotId : String)
    (results : List EvaluationResult) : List GoalResponseRow :=
  results.foldl (fun t result => upsertOne t studentId chatbotId result) table

/-- An administrative or student operation touching the session table:
either a gate call or a reset call. Together these are the only writers of
`student_sessions` in the repository. -/
inductive Op where
  | gate (auth : AuthInput) (chatbotId : String) : Op
  | reset (auth : AuthInput) (chatbotId : String) (body : Option ResetScope) : Op
deriving DecidableEq, Repr

/-- State transition of one operation. -/
def applyOp (db : DB) : Op → DB
  | Op.gate a cid => (sessionsPOST db a cid).2
  | Op.reset a cid b => (manageAttemptsPOST db a cid b).2

/-- Run a sequence of operations from an initial state. -/
def runOps (db : DB) (ops : List Op) : DB :=
  ops.foldl applyOp db

/-- The class-allowlist check of the gate passes for chatbot `c` and
profile `p` (the gate reaches the quota stage). -/
def classCheckPasses (c : Chatbot) (p : Profile) : Prop :=
  match c.allowed_classes, p.class_id with
  | some allowedClasses, some studentClassId => allowedClasses.contains studentClassId = true
  | some _, none => False
  | none, _ => True

/-! ### Concrete states used to evaluate the definitions -/

/-- A student at the quota edge: chatbot c1 with max_attempts 2 and two
recorded sessions of u1. -/
def dbW1 : DB :=
  { profiles := [⟨"u1", none⟩], chatbots := [⟨"c1", "t1", some 2, none⟩],
    students := [], sessions := [⟨0, "u1", "c1"⟩, ⟨1, "u1", "c1"⟩],
    goalResponses := [], nextId := 2 }

/-- Chatbot c2 with allowed_classes set to the EMPTY array (the default the
teacher UI submits when no class is ticked); u1 has a class, u2 has none. -/
def dbBug2 : DB :=
  { profiles := [⟨"u1", some "A"⟩, ⟨"u2", none⟩],
    chatbots := [⟨"c2", "t1", none, some []⟩],
    students := [], sessions := [], goalResponses := [], nextId := 0 }

/-- Chatbot c3 with max_attempts null (unlimited) and one session of u1
already recorded. -/
def dbBug3 : DB :=
  { profiles := [⟨"u1", none⟩], chatbots := [⟨"c3", "t1", none, none⟩],
    students := [], sessions := [⟨0, "u1", "c3"⟩], goalResponses := [], nextId := 1 }

/-- Chatbot c0 with max_attempts 0. -/
def dbW4 : DB :=
  { profiles := [⟨"u1", none⟩], chatbots := [⟨"c0", "t1", some 0, none⟩],
    students := [], sessions := [], goalResponses := [], nextId := 0 }

/-- Chatbot c5 restricted to class A; u1 is in class B, u2 in class A, u3
has no class. -/
def dbW5 : DB :=
  { profiles := [⟨"u1", some "B"⟩, ⟨"u2", some "A"⟩, ⟨"u3", none⟩],
    chatbots := [⟨"c5", "t1", some 3, some ["A"]⟩],
    students := [], sessions := [], goalResponses := [], nextId := 0 }

/-- An empty state. -/
def dbW6 : DB :=
  { profiles := [], chatbots := [], students := [], sessions := [],
    goalResponses := [], nextId := 0 }

/-- A student who exhausted chatbot c8 (max_attempts 2, two sessions), the
chatbot owned by teacher t1; a second session of another student and of
another chatbot sit alongside. -/
def dbW8 : DB :=
  { profiles := [⟨"u1", none⟩],
    chatbots := [⟨"c8", "t1", some 2, none⟩],
    students := [],
    sessions := [⟨0, "u1", "c8"⟩, ⟨1, "u1", "c8"⟩, ⟨2, "u2", "c8"⟩, ⟨3, "u1", "c9"⟩],
    goalResponses := [], nextId := 4 }

/-- Teacher t1 owns chatbot ca; the only student row belongs to class B, so
a class-A reset matches nobody. -/
def dbW10 : DB :=
  { profiles := [], chatbots := [⟨"ca", "t1", some 1, none⟩],
    students := [⟨"s1", "t1", "B"⟩],
    sessions := [⟨0, "s1", "ca"⟩], goalResponses := [], nextId := 1 }

/-- A goal-response table with one previously stored verdict. -/
def tableW9 : List GoalResponseRow :=
  [⟨"u1", "c1", "g1", false, "old reason", true⟩]

/-! ### Counting lemmas -/

theorem countRows_append (l : List SessionRow) (row : SessionRow) (sid cid : String) :
    countRows (l ++ [row]) sid cid =
      countRows l sid cid +
        (if row.student_id == sid && row.chatbot_id == cid then 1 else 0) := by
  by_cases h : (row.student_id == sid && row.chatbot_id == cid) = true
  · simp [countRows, List.filter_append, h]
  · simp [countRows, List.filter_append, h]

theorem countRows_sublist {l₁ l₂ : List SessionRow} (h : l₁.Sublist l₂) (sid cid : String) :
    countRows l₁ sid cid ≤ countRows l₂ sid cid :=
  List.Sublist.length_le (List.Sublist.filter _ h)

/-! ### Characterization of the quota stage and the gate -/

theorem quotaCheckAndInsert_spec (db : DB) (sid cid : String) (ma : Option Nat) :
    (quotaCheckAndInsert db sid cid ma = (GateResponse.deny 429 GateReason.QuotaExceeded, db) ∧
       ∃ m, ma = some m ∧ (m = 0 ∨ countSessions db sid cid ≥ m)) ∨
    ((ma = none ∧ quotaCheckAndInsert db sid cid ma = insertSession db sid cid 0 none) ∨
     (∃ m, ma = some m ∧ ¬(m = 0 ∨ countSessions db sid cid ≥ m) ∧
        quotaCheckAndInsert db sid cid ma =
          insertSession db sid cid (countSessions db sid cid) (some m))) := by
  cases ma with
  | none => exact Or.inr (Or.inl ⟨rfl, rfl⟩)
  | some m =>
    by_cases h : m = 0 ∨ countSessions db sid cid ≥ m
    · exact Or.inl ⟨by simp [quotaCheckAndInsert, h], m, rfl, h⟩
    · exact Or.inr (Or.inr ⟨m, rfl, h, by simp [quotaCheckAndInsert, h]⟩)

theorem sessionsPOST_spec (db : DB) (a : AuthInput) (cid : String) :
    (∃ st r, sessionsPOST db a cid = (GateResponse.deny st r, db)) ∨
    (∃ uid p c, a = AuthInput.valid uid ∧ findProfile db uid = some p ∧
      findChatbot db cid = some c ∧
      ((c.max_attempts = none ∧
          sessionsPOST db a cid = insertSession db p.id cid 0 none) ∨
       (∃ m, c.max_attempts = some m ∧ ¬(m = 0 ∨ countSessions db p.id cid ≥ m) ∧
          sessionsPOST db a cid =
            insertSession db p.id cid (countSessions db p.id cid) (some m)))) := by
  cases a with
  | missing => exact Or.inl ⟨401, GateReason.TokenMissing, rfl⟩
  | invalid => exact Or.inl ⟨401, GateReason.InvalidToken, rfl⟩
  | valid uid =>
    cases hp : findProfile db uid with
    | none => exact Or.inl ⟨403, GateReason.ProfileNotFound, by simp [sessionsPOST, hp]⟩
    | some p =>
      cases hc : findChatbot db cid with
      | none => exact Or.inl ⟨404, GateReason.ChatbotNotFound, by simp [sessionsPOST, hp, hc]⟩
      | some c =>
        have hq := quotaCheckAndInsert_spec db p.id cid c.max_attempts
        have hfinish : sessionsPOST db (AuthInput.valid uid) cid =
            quotaCheckAndInsert db p.id cid c.max_attempts →
            (∃ st r, sessionsPOST db (AuthInput.valid uid) cid = (GateResponse.deny st r, db)) ∨
            (∃ uid2 p2 c2, AuthInput.valid uid = AuthInput.valid uid2 ∧
              findProfile db uid2 = some p2 ∧ findChatbot db cid = some c2 ∧
              ((c2.max_attempts = none ∧
                  sessionsPOST db (AuthInput.valid uid) cid = insertSession db p2.id cid 0 none) ∨
               (∃ m, c2.max_attempts = some m ∧ ¬(m = 0 ∨ countSessions db p2.id cid ≥ m) ∧
                  sessionsPOST db (AuthInput.valid uid) cid =
                    insertSession db p2.id cid (countSessions db p2.id cid) (some m)))) := by
          intro hgate
          rcases hq with ⟨heq, m, hm, hcond⟩ | (⟨hma, heq⟩ | ⟨m, hm, hcond, heq⟩)
          · exact Or.inl ⟨429, GateReason.QuotaExceeded, hgate.trans heq⟩
          · exact Or.inr ⟨uid, p, c, rfl, hp, hc, Or.inl ⟨hma, hgate.trans heq⟩⟩
          · exact Or.inr ⟨uid, p, c, rfl, hp, hc, Or.inr ⟨m, hm, hcond, hgate.trans heq⟩⟩
        have hmain := hfinish
        rw [hc] at hmain
        cases hac : c.allowed_classes with
        | none => exact hmain (by simp [sessionsPOST, hp, hc, hac])
        | some allowedClasses =>
          cases hci : p.class_id with
          | none =>
            exact Or.inl ⟨403, GateReason.ClassInfoMissing,
              by simp [sessionsPOST, hp, hc, hac, hci]⟩
          | some studentClassId =>
            by_cases hmem : studentClassId ∈ allowedClasses
            · exact hmain (by simp [sessionsPOST, hp, hc, hac, hci, List.elem_eq_mem, hmem])
            · exact Or.inl ⟨403, GateReason.ClassNotAllowed,
                by simp [sessionsPOST, hp, hc, hac, hci, List.elem_eq_mem, hmem]⟩

/-! ### Effect of one gate call on the session count -/

theorem sessionsPOST_count_le (db : DB) (a : AuthInput) (cid' sid cid : String)
    (c : Chatbot) (M : Nat)
    (hc : findChatbot db cid = some c) (hM : c.max_attempts = some M)
    (hle : countSessions db sid cid ≤ M) :
    countSessions (sessionsPOST db a cid').2 sid cid ≤ M := by
  rcases sessionsPOST_spec db a cid' with ⟨st, r, heq⟩ | ⟨uid, p, c', ha, hp, hc', hrest⟩
  · rw [heq]
    exact hle
  · rcases hrest with ⟨hma, heq⟩ | ⟨m, hm, hcond, heq⟩
    · rw [heq]
      have hrw : countSessions (insertSession db p.id cid' 0 none).2 sid cid
          = countRows (db.sessions ++ [⟨db.nextId, p.id, cid'⟩]) sid cid := rfl
      rw [hrw, countRows_append]
      by_cases hcid : cid' = cid
      · subst hcid
        rw [hc] at hc'
        cases hc'
        rw [hma] at hM
        cases hM
      · have hind : ((⟨db.nextId, p.id, cid'⟩ : SessionRow).student_id == sid
            && (⟨db.nextId, p.id, cid'⟩ : SessionRow).chatbot_id == cid) = false := by
          simp only [SessionRow.mk.injEq]
          simp [beq_iff_eq, hcid]
        rw [hind]
        simpa using hle
    · rw [heq]
      have hrw : countSessions
            (insertSession db p.id cid' (countSessions db p.id cid') (some m)).2 sid cid
          = countRows (db.sessions ++ [⟨db.nextId, p.id, cid'⟩]) sid cid := rfl
      rw [hrw, countRows_append]
      by_cases hcid : cid' = cid
      · subst hcid
        rw [hc] at hc'
        cases hc'
        rw [hM] at hm
        cases hm
        by_cases hsid : p.id = sid
        · subst hsid
          have hlt : countSessions db p.id cid' < M := by omega
          have : countRows db.sessions p.id cid' + 1 ≤ M := hlt
          simpa [beq_iff_eq] using this
        · have hind : ((⟨db.nextId, p.id, cid'⟩ : SessionRow).student_id == sid
              && (⟨db.nextId, p.id, cid'⟩ : SessionRow).chatbot_id == cid') = false := by
            simp [beq_iff_eq, hsid]
          rw [hind]
          simpa using hle
      · have hind : ((⟨db.nextId, p.id, cid'⟩ : SessionRow).student_id == sid
            && (⟨db.nextId, p.id, cid'⟩ : SessionRow).chatbot_id == cid) = false := by
          simp [beq_iff_eq, hcid]
        rw [hind]
        simpa using hle

/-- Every gate call leaves every table other than the sessions unchanged,
and the chatbot table in particular. -/
theorem sessionsPOST_chatbots (db : DB) (a : AuthInput) (cid : String) :
    (sessionsPOST db a cid).2.chatbots = db.chatbots := by
  rcases sessionsPOST_spec db a cid with ⟨st, r, heq⟩ | ⟨uid, p, c, ha, hp, hc, hrest⟩
  · rw [heq]
  · rcases hrest with ⟨hma, heq⟩ | ⟨m, hm, hcond, heq⟩ <;> rw [heq] <;> rfl

/-! ### Effect of one reset call -/

theorem manageAttempts_frame (db : DB) (a : AuthInput) (cid : String)
    (body : Option ResetScope) :
    ∃ l, (manageAttemptsPOST db a cid body).2 = { db with sessions := l } ∧
      l.Sublist db.sessions := by
  cases a with
  | missing => exact ⟨db.sessions, rfl, List.Sublist.refl _⟩
  | invalid => exact ⟨db.sessions, rfl, List.Sublist.refl _⟩
  | valid uid =>
    cases hc : findChatbot db cid with
    | none =>
      refine ⟨db.sessions, ?_, List.Sublist.refl _⟩
      simp [manageAttemptsPOST, hc]
    | some chatbot =>
      by_cases hown : chatbot.teacher_id ≠ uid
      · refine ⟨db.sessions, ?_, List.Sublist.refl _⟩
        simp [manageAttemptsPOST, hc, hown]
      · cases body with
        | none =>
          refine ⟨db.sessions, ?_, List.Sublist.refl _⟩
          simp [manageAttemptsPOST, hc, hown]
        | some scope =>
          cases scope with
          | studentScope studentId =>
            refine ⟨db.sessions.filter
              (fun s => !(s.chatbot_id == cid && s.student_id == studentId)), ?_,
              List.filter_sublist _⟩
            simp [manageAttemptsPOST, hc, hown]
          | classScope className =>
            by_cases hlen : (db.students.filter
                (fun st => st.teacher_id == uid && st.class_name == className)).length > 0
            · refine ⟨db.sessions.filter
                (fun s => !(s.chatbot_id == cid &&
                  ((db.students.filter
                    (fun st => st.teacher_id == uid && st.class_name == className)).map
                      (fun st => st.id)).contains s.student_id)), ?_,
                List.filter_sublist _⟩
              simp [manageAttemptsPOST, hc, hown, hlen]
            · refine ⟨db.sessions, ?_, List.Sublist.refl _⟩
              simp [manageAttemptsPOST, hc, hown, hlen]
          | chatbotScope =>
            refine ⟨db.sessions.filter (fun s => !(s.chatbot_id == cid)), ?_,
              List.filter_sublist _⟩
            simp [manageAttemptsPOST, hc, hown]

theorem manageAttempts_count_le (db : DB) (a : AuthInput) (cid' : String)
    (body : Option ResetScope) (sid cid : String) :
    countSessions (manageAttemptsPOST db a cid' body).2 sid cid ≤
      countSessions db sid cid := by
  obtain ⟨l, heq, hsub⟩ := manageAttempts_frame db a cid' body
  rw [heq]
  exact countRows_sublist hsub sid cid

theorem manageAttempts_chatbots (db : DB) (a : AuthInput) (cid : String)
    (body : Option ResetScope) :
    (manageAttemptsPOST db a cid body).2.chatbots = db.chatbots := by
  obtain ⟨l, heq, hsub⟩ := manageAttempts_frame db a cid body
  rw [heq]

/-! ### The invariant over operation sequences -/

theorem findChatbot_congr {db db' : DB} (h : db'.chatbots = db.chatbots) (cid : String) :
    findChatbot db' cid = findChatbot db cid := by
  simp [findChatbot, h]

theorem applyOp_chatbots (db : DB) (op : Op) : (applyOp db op).chatbots = db.chatbots := by
  cases op with
  | gate a cid => exact sessionsPOST_chatbots db a cid
  | reset a cid b => exact manageAttempts_chatbots db a cid b

theorem applyOp_count_le (db : DB) (op : Op) (sid cid : String) (c : Chatbot) (M : Nat)
    (hc : findChatbot db cid = some c) (hM : c.max_attempts = some M)
    (hle : countSessions db sid cid ≤ M) :
    countSessions (applyOp db op) sid cid ≤ M := by
  cases op with
  | gate a cid' => exact sessionsPOST_count_le db a cid' sid cid c M hc hM hle
  | reset a cid' b => exact le_trans (manageAttempts_count_le db a cid' b sid cid) hle

theorem runOps_count_le (ops : List Op) (db : DB) (sid cid : String) (c : Chatbot) (M : Nat)
    (hc : findChatbot db cid = some c) (hM : c.max_attempts = some M)
    (hle : countSessions db sid cid ≤ M) :
    countSessions (runOps db ops) sid cid ≤ M := by
  induction ops generalizing db with
  | nil => exact hle
  | cons op rest ih =>
    have hc2 : findChatbot (applyOp db op) cid = some c :=
      (findChatbot_congr (applyOp_chatbots db op) cid).trans hc
    exact ih (applyOp db op) hc2 (applyOp_count_le db op sid cid c M hc hM hle)

/-! ### The gate up to the quota stage -/

theorem sessionsPOST_eq_quota (db : DB) (uid cid : String) (p : Profile) (c : Chatbot)
    (hp : findProfile db uid = some p) (hc : findChatbot db cid = some c)
    (hcl : classCheckPasses c p) :
    sessionsPOST db (AuthInput.valid uid) cid =
      quotaCheckAndInsert db p.id cid c.max_attempts := by
  cases hac : c.allowed_classes with
  | none => simp [sessionsPOST, hp, hc, hac]
  | some allowedClasses =>
    cases hci : p.class_id with
    | none =>
      exfalso
      rw [classCheckPasses, hac, hci] at hcl
      exact hcl
    | some studentClassId =>
      have hmem : studentClassId ∈ allowedClasses := by
        simpa [classCheckPasses, hac, hci, List.elem_eq_mem] using hcl
      simp [sessionsPOST, hp, hc, hac, hci, List.elem_eq_mem, hmem]

/-- Exhaustive case analysis of the gate: each of the seven paths of the
source, with its exact status, reason and state effect. -/
theorem sessionsPOST_cases (db : DB) (a : AuthInput) (cid : String) :
    (a = AuthInput.missing ∧
      sessionsPOST db a cid = (GateResponse.deny 401 GateReason.TokenMissing, db)) ∨
    (a = AuthInput.invalid ∧
      sessionsPOST db a cid = (GateResponse.deny 401 GateReason.InvalidToken, db)) ∨
    (∃ uid, a = AuthInput.valid uid ∧ findProfile db uid = none ∧
      sessionsPOST db a cid = (GateResponse.deny 403 GateReason.ProfileNotFound, db)) ∨
    (∃ uid p, a = AuthInput.valid uid ∧ findProfile db uid = some p ∧
      findChatbot db cid = none ∧
      sessionsPOST db a cid = (GateResponse.deny 404 GateReason.ChatbotNotFound, db)) ∨
    (∃ uid p c l, a = AuthInput.valid uid ∧ findProfile db uid = some p ∧
      findChatbot db cid = some c ∧ c.allowed_classes = some l ∧ p.class_id = none ∧
      sessionsPOST db a cid = (GateResponse.deny 403 GateReason.ClassInfoMissing, db)) ∨
    (∃ uid p c l s, a = AuthInput.valid uid ∧ findProfile db uid = some p ∧
      findChatbot db cid = some c ∧ c.allowed_classes = some l ∧ p.class_id = some s ∧
      s ∉ l ∧
      sessionsPOST db a cid = (GateResponse.deny 403 GateReason.ClassNotAllowed, db)) ∨
    (∃ uid p c, a = AuthInput.valid uid ∧ findProfile db uid = some p ∧
      findChatbot db cid = some c ∧ classCheckPasses c p ∧
      sessionsPOST db a cid = quotaCheckAndInsert db p.id cid c.max_attempts) := by
  cases a with
  | missing => exact Or.inl ⟨rfl, rfl⟩
  | invalid => exact Or.inr (Or.inl ⟨rfl, rfl⟩)
  | valid uid =>
    cases hp : findProfile db uid with
    | none =>
      exact Or.inr (Or.inr (Or.inl ⟨uid, rfl, hp, by simp [sessionsPOST, hp]⟩))
    | some p =>
      cases hc : findChatbot db cid with
      | none =>
        exact Or.inr (Or.inr (Or.inr (Or.inl
          ⟨uid, p, rfl, hp, rfl, by simp [sessionsPOST, hp, hc]⟩)))
      | some c =>
        cases hac : c.allowed_classes with
        | none =>
          refine Or.inr (Or.inr (Or.inr (Or.inr (Or.inr (Or.inr
            ⟨uid, p, c, rfl, hp, rfl, ?_, ?_⟩)))))
          · simp [classCheckPasses, hac]
          · simp [sessionsPOST, hp, hc, hac]
        | some allowedClasses =>
          cases hci : p.class_id with
          | none =>
            exact Or.inr (Or.inr (Or.inr (Or.inr (Or.inl
              ⟨uid, p, c, allowedClasses, rfl, hp, rfl, hac, hci,
               by simp [sessionsPOST, hp, hc, hac, hci]⟩))))
          | some studentClassId =>
            by_cases hmem : studentClassId ∈ allowedClasses
            · refine Or.inr (Or.inr (Or.inr (Or.inr (Or.inr (Or.inr
                ⟨uid, p, c, rfl, hp, rfl, ?_, ?_⟩)))))
              · simp [classCheckPasses, hac, hci, List.elem_eq_mem, hmem]
              · simp [sessionsPOST, hp, hc, hac, hci, List.elem_eq_mem, hmem]
            · exact Or.inr (Or.inr (Or.inr (Or.inr (Or.inr (Or.inl
                ⟨uid, p, c, allowedClasses, studentClassId, rfl, hp, rfl, hac, hci, hmem,
                 by simp [sessionsPOST, hp, hc, hac, hci, List.elem_eq_mem, hmem]⟩)))))

/-! ### Claims -/

/-- Claim C1 (quota invariant): for every student S and chatbot C whose
max_attempts is a non-null integer M, the count of UsageSession rows for
(S, C) never exceeds M under any sequence of gate calls and administrative
resets, and whenever the existing count is at least M (or M = 0), a gate
call reaching the quota stage denies with QuotaExceeded and leaves the
state unchanged. -/
theorem claim1_quota_invariant (db : DB) (ops : List Op) (sid cid : String)
    (c : Chatbot) (M : Nat)
    (hc : findChatbot db cid = some c) (hM : c.max_attempts = some M)
    (hle : countSessions db sid cid ≤ M) :
    countSessions (runOps db ops) sid cid ≤ M ∧
    ((M = 0 ∨ countSessions db sid cid ≥ M) →
      ∀ (uid : String) (p : Profile), findProfile db uid = some p → p.id = sid →
        classCheckPasses c p →
        sessionsPOST db (AuthInput.valid uid) cid =
          (GateResponse.deny 429 GateReason.QuotaExceeded, db)) := by
  refine ⟨runOps_count_le ops db sid cid c M hc hM hle, ?_⟩
  intro hcond uid p hp hpid hcl
  rw [sessionsPOST_eq_quota db uid cid p c hp hc hcl, hM, hpid]
  simp [quotaCheckAndInsert, hcond]

theorem claim1_quota_invariant_witness :
    countSessions (runOps dbW1 [Op.gate (AuthInput.valid "u1") "c1"]) "u1" "c1" ≤ 2 ∧
    sessionsPOST dbW1 (AuthInput.valid "u1") "c1" =
      (GateResponse.deny 429 GateReason.QuotaExceeded, dbW1) := by
  have h := claim1_quota_invariant dbW1 [Op.gate (AuthInput.valid "u1") "c1"] "u1" "c1"
    ⟨"c1", "t1", some 2, none⟩ 2 (by decide) rfl (by decide)
  exact ⟨h.1, h.2 (by decide) "u1" ⟨"u1", none⟩ (by decide) rfl (by simp [classCheckPasses])⟩

/-- Claim C2 (open allowlist, refuted by the code): the claim says a
chatbot whose allowed_classes is the empty array skips the class check
exactly like null; the code instead denies every student (the empty array
is truthy in JavaScript), with ClassNotAllowed for a student who has a
class and ClassInfoMissing for a student who has none, while null indeed
skips the check. -/
theorem claim2_empty_allowlist_denies :
    sessionsPOST dbBug2 (AuthInput.valid "u1") "c2"
      = (GateResponse.deny 403 GateReason.ClassNotAllowed, dbBug2) ∧
    sessionsPOST dbBug2 (AuthInput.valid "u2") "c2"
      = (GateResponse.deny 403 GateReason.ClassInfoMissing, dbBug2) := by
  constructor
  · rfl
  · rfl

/-- Claim C3 (null means unlimited, response refuted by the code): with
max_attempts null every call succeeds, but the count query is skipped, so
current_attempts in the response is always 1; here u1 already has one
session recorded and the next call still reports 1 instead of 2. -/
theorem claim3_null_max_constant_one :
    countSessions dbBug3 "u1" "c3" = 1 ∧
    (sessionsPOST dbBug3 (AuthInput.valid "u1") "c3").1
      = GateResponse.allow 1 "u1" "c3" 1 none := by
  constructor
  · rfl
  · rfl

/-- Claim C4 (zero means never): for a chatbot with max_attempts 0, every
gate call reaching the quota stage (valid student, class check passing)
denies with status 429 QuotaExceeded and inserts nothing, whatever the
existing session count. -/
theorem claim4_zero_means_never (db : DB) (uid cid : String) (p : Profile) (c : Chatbot)
    (hp : findProfile db uid = some p) (hc : findChatbot db cid = some c)
    (hM : c.max_attempts = some 0) (hcl : classCheckPasses c p) :
    sessionsPOST db (AuthInput.valid uid) cid
      = (GateResponse.deny 429 GateReason.QuotaExceeded, db) := by
  rw [sessionsPOST_eq_quota db uid cid p c hp hc hcl, hM]
  simp [quotaCheckAndInsert]

theorem claim4_zero_means_never_witness :
    sessionsPOST dbW4 (AuthInput.valid "u1") "c0"
      = (GateResponse.deny 429 GateReason.QuotaExceeded, dbW4) :=
  claim4_zero_means_never dbW4 "u1" "c0" ⟨"u1", none⟩ ⟨"c0", "t1", some 0, none⟩
    (by decide) (by decide) rfl (by simp [classCheckPasses])

/-- Claim C5 (restricted allowlist): for a chatbot with a non-empty
allowed_classes list, a student without a class fails with
ClassInfoMissing, a student whose class is not listed fails with
ClassNotAllowed (both 403, state unchanged), and a student whose class is
listed passes the class check and proceeds to the quota stage. -/
theorem claim5_restricted_allowlist (db : DB) (uid cid : String) (p : Profile)
    (c : Chatbot) (allowedClasses : List String)
    (hp : findProfile db uid = some p) (hc : findChatbot db cid = some c)
    (hac : c.allowed_classes = some allowedClasses) (hne : allowedClasses ≠ []) :
    (p.class_id = none →
      sessionsPOST db (AuthInput.valid uid) cid
        = (GateResponse.deny 403 GateReason.ClassInfoMissing, db)) ∧
    (∀ studentClassId, p.class_id = some studentClassId →
      studentClassId ∉ allowedClasses →
      sessionsPOST db (AuthInput.valid uid) cid
        = (GateResponse.deny 403 GateReason.ClassNotAllowed, db)) ∧
    (∀ studentClassId, p.class_id = some studentClassId →
      studentClassId ∈ allowedClasses →
      sessionsPOST db (AuthInput.valid uid) cid
        = quotaCheckAndInsert db p.id cid c.max_attempts) := by
  refine ⟨?_, ?_, ?_⟩
  · intro hci
    simp [sessionsPOST, hp, hc, hac, hci]
  · intro s hci hmem
    simp [sessionsPOST, hp, hc, hac, hci, List.elem_eq_mem, hmem]
  · intro s hci hmem
    simp [sessionsPOST, hp, hc, hac, hci, List.elem_eq_mem, hmem]

theorem claim5_restricted_allowlist_witness :
    sessionsPOST dbW5 (AuthInput.valid "u3") "c5"
      = (GateResponse.deny 403 GateReason.ClassInfoMissing, dbW5) ∧
    sessionsPOST dbW5 (AuthInput.valid "u1") "c5"
      = (GateResponse.deny 403 GateReason.ClassNotAllowed, dbW5) ∧
    sessionsPOST dbW5 (AuthInput.valid "u2") "c5"
      = quotaCheckAndInsert dbW5 "u2" "c5" (some 3) := by
  refine ⟨?_, ?_, ?_⟩
  · exact (claim5_restricted_allowlist dbW5 "u3" "c5" ⟨"u3", none⟩
      ⟨"c5", "t1", some 3, some ["A"]⟩ ["A"] (by decide) (by decide) rfl
      (by decide)).1 rfl
  · exact (claim5_restricted_allowlist dbW5 "u1" "c5" ⟨"u1", some "B"⟩
      ⟨"c5", "t1", some 3, some ["A"]⟩ ["A"] (by decide) (by decide) rfl
      (by decide)).2.1 "B" rfl (by decide)
  · exact (claim5_restricted_allowlist dbW5 "u2" "c5" ⟨"u2", some "A"⟩
      ⟨"c5", "t1", some 3, some ["A"]⟩ ["A"] (by decide) (by decide) rfl
      (by decide)).2.2 "A" rfl (by decide)

/-- Claim C6 (deny atomicity): the gate inserts exactly one session row,
and only on the allow (201) path; on every deny path the state, all tables
included, is returned unchanged. -/
theorem claim6_deny_atomicity (db : DB) (a : AuthInput) (cid : String) :
    ((sessionsPOST db a cid).1.status = 201 →
      ∃ sid, (sessionsPOST db a cid).2 =
        { db with sessions := db.sessions ++ [⟨db.nextId, sid, cid⟩],
                  nextId := db.nextId + 1 }) ∧
    ((sessionsPOST db a cid).1.status ≠ 201 → (sessionsPOST db a cid).2 = db) := by
  have hdeny : ∀ st r, sessionsPOST db a cid = (GateResponse.deny st r, db) → st ≠ 201 →
      ((sessionsPOST db a cid).1.status = 201 →
        ∃ sid, (sessionsPOST db a cid).2 =
          { db with sessions := db.sessions ++ [⟨db.nextId, sid, cid⟩],
                    nextId := db.nextId + 1 }) ∧
      ((sessionsPOST db a cid).1.status ≠ 201 → (sessionsPOST db a cid).2 = db) := by
    intro st r heq hst
    constructor
    · intro h
      rw [heq] at h
      exact absurd h hst
    · intro _
      rw [heq]
  have hallow : ∀ (sid : String) (k : Nat) (ma : Option Nat),
      sessionsPOST db a cid = insertSession db sid cid k ma →
      ((sessionsPOST db a cid).1.status = 201 →
        ∃ sid2, (sessionsPOST db a cid).2 =
          { db with sessions := db.sessions ++ [⟨db.nextId, sid2, cid⟩],
                    nextId := db.nextId + 1 }) ∧
      ((sessionsPOST db a cid).1.status ≠ 201 → (sessionsPOST db a cid).2 = db) := by
    intro sid k ma heq
    constructor
    · intro _
      refine ⟨sid, ?_⟩
      rw [heq]
      rfl
    · intro h
      exfalso
      apply h
      rw [heq]
      rfl
  rcases sessionsPOST_cases db a cid with ⟨ha, heq⟩ | ⟨ha, heq⟩ | ⟨uid, ha, hp, heq⟩ |
    ⟨uid, p, ha, hp, hc, heq⟩ | ⟨uid, p, c, l, ha, hp, hc, hac, hci, heq⟩ |
    ⟨uid, p, c, l, s, ha, hp, hc, hac, hci, hmem, heq⟩ | ⟨uid, p, c, ha, hp, hc, hcl, heq⟩
  · exact hdeny 401 _ heq (by decide)
  · exact hdeny 401 _ heq (by decide)
  · exact hdeny 403 _ heq (by decide)
  · exact hdeny 404 _ heq (by decide)
  · exact hdeny 403 _ heq (by decide)
  · exact hdeny 403 _ heq (by decide)
  · rcases quotaCheckAndInsert_spec db p.id cid c.max_attempts with
      ⟨heq2, m, hm, hcond⟩ | (⟨hma, heq2⟩ | ⟨m, hm, hcond, heq2⟩)
    · exact hdeny 429 _ (heq.trans heq2) (by decide)
    · exact hallow p.id 0 none (heq.trans heq2)
    · exact hallow p.id (countSessions db p.id cid) (some m) (heq.trans heq2)

theorem claim6_deny_atomicity_witness :
    (sessionsPOST dbW6 AuthInput.missing "c").2 = dbW6 :=
  (claim6_deny_atomicity dbW6 AuthInput.missing "c").2 (by decide)

/-- Claim C7 (status mapping): the sessions route returns 201 exactly on
allow (with the response body fields), 401 exactly when the bearer
credential is missing or invalid, 403 exactly when the failure reason is
ProfileNotFound, ClassInfoMissing or ClassNotAllowed, 404 exactly when the
chatbot does not exist, and 429 exactly when the quota check fails. -/
theorem claim7_status_mapping (db : DB) (a : AuthInput) (cid : String) :
    ((sessionsPOST db a cid).1.status = 201 ↔
      ∃ i s ca ma, (sessionsPOST db a cid).1 = GateResponse.allow i s cid ca ma) ∧
    ((sessionsPOST db a cid).1.status = 401 ↔
      a = AuthInput.missing ∨ a = AuthInput.invalid) ∧
    ((sessionsPOST db a cid).1.status = 403 ↔
      ((sessionsPOST db a cid).1.reasonOf = some GateReason.ProfileNotFound ∨
       (sessionsPOST db a cid).1.reasonOf = some GateReason.ClassInfoMissing ∨
       (sessionsPOST db a cid).1.reasonOf = some GateReason.ClassNotAllowed)) ∧
    ((sessionsPOST db a cid).1.status = 404 ↔
      (sessionsPOST db a cid).1.reasonOf = some GateReason.ChatbotNotFound) ∧
    ((sessionsPOST db a cid).1.status = 429 ↔
      (sessionsPOST db a cid).1.reasonOf = some GateReason.QuotaExceeded) := by
  rcases sessionsPOST_cases db a cid with ⟨ha, heq⟩ | ⟨ha, heq⟩ | ⟨uid, ha, hp, heq⟩ |
    ⟨uid, p, ha, hp, hc, heq⟩ | ⟨uid, p, c, l, ha, hp, hc, hac, hci, heq⟩ |
    ⟨uid, p, c, l, s, ha, hp, hc, hac, hci, hmem, heq⟩ | ⟨uid, p, c, ha, hp, hc, hcl, heq⟩
  · rw [heq, ha]
    simp [GateResponse.status, GateResponse.reasonOf]
  · rw [heq, ha]
    simp [GateResponse.status, GateResponse.reasonOf]
  · rw [heq, ha]
    simp [GateResponse.status, GateResponse.reasonOf]
  · rw [heq, ha]
    simp [GateResponse.status, GateResponse.reasonOf]
  · rw [heq, ha]
    simp [GateResponse.status, GateResponse.reasonOf]
  · rw [heq, ha]
    simp [GateResponse.status, GateResponse.reasonOf]
  · rcases quotaCheckAndInsert_spec db p.id cid c.max_attempts with
      ⟨heq2, m, hm, hcond⟩ | (⟨hma, heq2⟩ | ⟨m, hm, hcond, heq2⟩)
    · rw [heq.trans heq2, ha]
      simp [GateResponse.status, GateResponse.reasonOf]
    · rw [heq.trans heq2, ha]
      simp [insertSession, GateResponse.status, GateResponse.reasonOf]
    · rw [heq.trans heq2, ha]
      simp [insertSession, GateResponse.status, GateResponse.reasonOf]

/-- At count 0 and a non-zero cap, the quota stage allows with
current_attempts 1. -/
theorem quotaCheckAndInsert_first (db : DB) (sid cid : String) (m : Nat)
    (hm : m ≠ 0) (hcnt : countSessions db sid cid = 0) :
    (quotaCheckAndInsert db sid cid (some m)).1 =
      GateResponse.allow db.nextId sid cid 1 (some m) := by
  have hcond : ¬(m = 0 ∨ countSessions db sid cid ≥ m) := by
    rw [hcnt]
    omega
  simp only [quotaCheckAndInsert]
  rw [if_neg hcond, hcnt]
  rfl

/-- Claim C8 (reset round-trip): a scope student reset by the owning
teacher answers 200, keeps exactly the session rows NOT belonging to
(chatbot, student) — rows of other students and other chatbots survive —
and leaves the pair at count 0, so the next gate call of that student for
that chatbot (class check passing, max_attempts not 0) is allowed with
current_attempts 1, exactly like the first call of a brand-new student. -/
theorem claim8_reset_roundtrip (db : DB) (uid cid sid : String) (c : Chatbot)
    (out : ManageResponse × DB)
    (hc : findChatbot db cid = some c) (hown : c.teacher_id = uid)
    (hout : manageAttemptsPOST db (AuthInput.valid uid) cid
      (some (ResetScope.studentScope sid)) = out) :
    out.1 = ManageResponse.ok 200 "Attempts reset successfully" ∧
    (∀ s : SessionRow, s ∈ out.2.sessions ↔
      s ∈ db.sessions ∧ ¬(s.chatbot_id = cid ∧ s.student_id = sid)) ∧
    countSessions out.2 sid cid = 0 ∧
    (∀ (uid2 : String) (p : Profile), findProfile out.2 uid2 = some p →
      p.id = sid → classCheckPasses c p → c.max_attempts ≠ some 0 →
      (sessionsPOST out.2 (AuthInput.valid uid2) cid).1
        = GateResponse.allow out.2.nextId sid cid 1 c.max_attempts) := by
  have hstep : manageAttemptsPOST db (AuthInput.valid uid) cid
      (some (ResetScope.studentScope sid)) =
      (ManageResponse.ok 200 "Attempts reset successfully",
       { db with sessions := db.sessions.filter (fun s => !(s.chatbot_id == cid && s.student_id == sid)) }) := by
    simp [manageAttemptsPOST, hc, hown]
  rw [hstep] at hout
  subst hout
  have hcount : ∀ sid2 : String, sid2 = sid →
      countSessions { db with sessions := db.sessions.filter (fun s => !(s.chatbot_id == cid && s.student_id == sid)) } sid2 cid = 0 := by
    intro sid2 hsid2
    subst hsid2
    show ((db.sessions.filter (fun s => !(s.chatbot_id == cid && s.student_id == sid2))).filter
      (fun s => s.student_id == sid2 && s.chatbot_id == cid)).length = 0
    rw [List.filter_filter]
    have hnil : db.sessions.filter (fun a =>
        (a.student_id == sid2 && a.chatbot_id == cid) &&
        !(a.chatbot_id == cid && a.student_id == sid2)) = [] := by
      rw [List.filter_eq_nil_iff]
      intro a ha
      by_cases h1 : (a.student_id == sid2) = true <;>
        by_cases h2 : (a.chatbot_id == cid) = true <;> simp [h1, h2]
    rw [hnil]
    rfl
  refine ⟨rfl, ?_, hcount sid rfl, ?_⟩
  · intro s
    show s ∈ db.sessions.filter (fun s => !(s.chatbot_id == cid && s.student_id == sid)) ↔ _
    rw [List.mem_filter]
    simp [beq_iff_eq]
    tauto
  · intro uid2 p hp2 hpid hcl hmax
    have hc2 : findChatbot { db with sessions := db.sessions.filter (fun s => !(s.chatbot_id == cid && s.student_id == sid)) } cid = some c := hc
    rw [sessionsPOST_eq_quota _ uid2 cid p c hp2 hc2 hcl]
    cases hma : c.max_attempts with
    | none =>
      subst hpid
      rfl
    | some m =>
      have hm0 : m ≠ 0 := by
        intro h
        apply hmax
        rw [hma, h]
      have hcnt := hcount p.id hpid
      subst hpid
      exact quotaCheckAndInsert_first _ p.id cid m hm0 hcnt

theorem claim8_reset_roundtrip_witness :
    (manageAttemptsPOST dbW8 (AuthInput.valid "t1") "c8"
      (some (ResetScope.studentScope "u1"))).1
      = ManageResponse.ok 200 "Attempts reset successfully" ∧
    countSessions (manageAttemptsPOST dbW8 (AuthInput.valid "t1") "c8"
      (some (ResetScope.studentScope "u1"))).2 "u1" "c8" = 0 ∧
    (sessionsPOST (manageAttemptsPOST dbW8 (AuthInput.valid "t1") "c8"
      (some (ResetScope.studentScope "u1"))).2 (AuthInput.valid "u1") "c8").1
      = GateResponse.allow 4 "u1" "c8" 1 (some 2) := by
  have h := claim8_reset_roundtrip dbW8 "t1" "c8" "u1" ⟨"c8", "t1", some 2, none⟩ _
    (by decide) rfl rfl
  refine ⟨h.1, h.2.2.1, ?_⟩
  have hg := h.2.2.2 "u1" ⟨"u1", none⟩ (by decide) rfl (by simp [classCheckPasses]) (by decide)
  exact hg.trans (by rfl)

/-- Claim C9 (goal-evaluation overwrite): when a row with key
(student, chatbot, goal) already exists, upserting a new evaluation result
keeps the table size unchanged (no second row) and every row carrying that
key now holds the new verdict and justification. -/
theorem claim9_upsert_overwrites (table : List GoalResponseRow) (sid cid : String)
    (res : EvaluationResult)
    (h : ∃ r ∈ table, r.student_id = sid ∧ r.chatbot_id = cid ∧ r.goal_id = res.goal_id) :
    (upsertOne table sid cid res).length = table.length ∧
    (∀ r ∈ upsertOne table sid cid res,
      r.student_id = sid → r.chatbot_id = cid → r.goal_id = res.goal_id →
      r.evaluated_by_ai = res.achieved ∧ r.evaluation_comment = res.reason) := by
  have hany : (table.any (fun r => r.student_id == sid && r.chatbot_id == cid
      && r.goal_id == res.goal_id)) = true := by
    rw [List.any_eq_true]
    obtain ⟨r, hr, h1, h2, h3⟩ := h
    exact ⟨r, hr, by simp [beq_iff_eq, h1, h2, h3]⟩
  simp only [upsertOne]
  rw [if_pos hany]
  constructor
  · exact List.length_map _ _
  · intro r hr h1 h2 h3
    rw [List.mem_map] at hr
    obtain ⟨r0, hr0, hg⟩ := hr
    by_cases hkey : (r0.student_id == sid && r0.chatbot_id == cid
        && r0.goal_id == res.goal_id) = true
    · rw [if_pos hkey] at hg
      rw [← hg]
      exact ⟨rfl, rfl⟩
    · rw [if_neg hkey] at hg
      subst hg
      exfalso
      apply hkey
      simp [beq_iff_eq, h1, h2, h3]

theorem claim9_upsert_overwrites_witness :
    (upsertOne tableW9 "u1" "c1" ⟨"g1", true, "new reason"⟩).length = tableW9.length :=
  (claim9_upsert_overwrites tableW9 "u1" "c1" ⟨"g1", true, "new reason"⟩
    ⟨⟨"u1", "c1", "g1", false, "old reason", true⟩, by decide, rfl, rfl, rfl⟩).1

/-- Claim C10 (empty-class reset is a successful no-op): a scope class
reset whose (teacher, class name) pair matches no student row deletes
nothing and still answers 200 with the success message; and in general this
scope only ever removes session rows of this chatbot belonging to a student
row matching both the requesting teacher id and the class name. -/
theorem claim10_empty_class_reset (db : DB) (uid cid cname : String) (c : Chatbot)
    (hc : findChatbot db cid = some c) (hown : c.teacher_id = uid) :
    ((∀ st ∈ db.students, ¬(st.teacher_id = uid ∧ st.class_name = cname)) →
      manageAttemptsPOST db (AuthInput.valid uid) cid (some (ResetScope.classScope cname))
        = (ManageResponse.ok 200 "Attempts reset successfully", db)) ∧
    (∀ s ∈ db.sessions,
      s ∉ (manageAttemptsPOST db (AuthInput.valid uid) cid
        (some (ResetScope.classScope cname))).2.sessions →
      s.chatbot_id = cid ∧ ∃ st ∈ db.students,
        st.teacher_id = uid ∧ st.class_name = cname ∧ st.id = s.student_id) := by
  constructor
  · intro hno
    have hnil : db.students.filter
        (fun st => st.teacher_id == uid && st.class_name == cname) = [] := by
      rw [List.filter_eq_nil_iff]
      intro st hst
      have hnst := hno st hst
      simp only [Bool.and_eq_true, beq_iff_eq]
      tauto
    simp [manageAttemptsPOST, hc, hown, hnil]
  · intro s hs hnot
    by_cases hlen : (db.students.filter
        (fun st => st.teacher_id == uid && st.class_name == cname)).length > 0
    · have hstep : (manageAttemptsPOST db (AuthInput.valid uid) cid
          (some (ResetScope.classScope cname))).2
          = { db with sessions := db.sessions.filter (fun s2 => !(s2.chatbot_id == cid && ((db.students.filter (fun st => st.teacher_id == uid && st.class_name == cname)).map (fun st => st.id)).contains s2.student_id)) } := by
        simp [manageAttemptsPOST, hc, hown, hlen]
      rw [hstep] at hnot
      have hkeep : ¬((!(s.chatbot_id == cid && ((db.students.filter
          (fun st => st.teacher_id == uid && st.class_name == cname)).map
            (fun st => st.id)).contains s.student_id)) = true) :=
        fun hk => hnot (List.mem_filter.mpr ⟨hs, hk⟩)
      rw [Bool.not_eq_true, Bool.not_eq_false', Bool.and_eq_true] at hkeep
      obtain ⟨hcid, hcontains⟩ := hkeep
      refine ⟨by simpa [beq_iff_eq] using hcid, ?_⟩
      have hmem : s.student_id ∈ (db.students.filter
          (fun st => st.teacher_id == uid && st.class_name == cname)).map
            (fun st => st.id) := by
        simpa [List.elem_eq_mem] using hcontains
      rw [List.mem_map] at hmem
      obtain ⟨st, hstf, hstid⟩ := hmem
      rw [List.mem_filter] at hstf
      obtain ⟨hstmem, hstpred⟩ := hstf
      rw [Bool.and_eq_true, beq_iff_eq, beq_iff_eq] at hstpred
      exact ⟨st, hstmem, hstpred.1, hstpred.2, hstid⟩
    · have hstep : (manageAttemptsPOST db (AuthInput.valid uid) cid
          (some (ResetScope.classScope cname))).2 = db := by
        simp [manageAttemptsPOST, hc, hown, hlen]
      rw [hstep] at hnot
      exact absurd hs hnot

theorem claim10_empty_class_reset_witness :
    manageAttemptsPOST dbW10 (AuthInput.valid "t1") "ca" (some (ResetScope.classScope "A"))
      = (ManageResponse.ok 200 "Attempts reset successfully", dbW10) :=
  (claim10_empty_class_reset dbW10 "t1" "ca" "A" ⟨"ca", "t1", some 1, none⟩
    (by decide) rfl).1 (by decide)
